import Mathlib

/-!
Shallow embedding of the Brainbeacon chat client (src/static/js/app.js).

The program is a browser-side chat UI controller.  Its mutable state is
the set of module-level globals (`currentSessionId`, `isWaitingResponse`,
`isComposing`), the input field's value, and the chat container's list of
rendered children.  The view is modelled as a `List ViewItem` in document
order; DOM removal by `querySelector(".welcome-message").remove()` and
`getElementById("loading-indicator").remove()` removes the first matching
element, modelled by `removeFirst`.

The externally loaded Markdown renderer (`marked.parse`) and HTML
sanitizer (`DOMPurify.sanitize`) are black boxes to this component, so
they are fields of an `Env` record; `hasMarked` / `hasDOMPurify` model the
truthiness of `window.marked` / `window.DOMPurify`.

The `async` handlers suspend at their awaited `fetch`; each handler is
embedded as a pure function of the state and of the outcome of its one
network exchange.  `handleSend` is split at its await point into
`handleSendPhase1` (everything before the fetch resolves) and
`handleSendPhase2` (the resumption), so that interleavings with
`handleNewChat` can be stated; `handleSend` is their composition.
-/

namespace Brainbeacon

/-- Message roles, the two values of the `role` argument of `addMessage`. -/
inductive Role where
  | user
  | assistant
deriving DecidableEq

/-- The browser environment external to app.js: truthiness of
`window.marked` and `window.DOMPurify`, and the two library functions
`marked.parse` and `DOMPurify.sanitize`, treated as black boxes. -/
structure Env where
  hasMarked : Bool
  hasDOMPurify : Bool
  parse : String → String
  sanitize : String → String

/-- How a message's content ended up in the DOM: as markup via
`innerHTML` or as inert text via `textContent` (app.js lines 167-172). -/
inductive Rendered where
  | markup (html : String)
  | text (s : String)
deriving DecidableEq

/-- One child of the chat container: the welcome placeholder
(`.welcome-message`), a message row built by `addMessage`, or the typing
placeholder built by `addLoadingIndicator` (id `loading-indicator`). -/
inductive ViewItem where
  | welcome
  | message (role : Role) (content : Rendered)
  | loadingIndicator
deriving DecidableEq

/-- Whether a view item is the welcome placeholder, i.e. matches the
`.welcome-message` selector of app.js line 108. -/
def ViewItem.isWelcome : ViewItem → Bool
  | ViewItem.welcome => true
  | _ => false

/-- Whether a view item is the typing placeholder, i.e. carries the
`loading-indicator` id assigned at app.js line 187. -/
def ViewItem.isLoading : ViewItem → Bool
  | ViewItem.loadingIndicator => true
  | _ => false

/-- The client state: the chat container's children in document order,
the input field's value, and the module-level globals `isWaitingResponse`,
`currentSessionId` and `isComposing` (app.js lines 7-9). -/
structure AppState where
  view : List ViewItem
  inputValue : String
  isWaitingResponse : Bool
  currentSessionId : String
  isComposing : Bool
deriving DecidableEq

/-- The body of a `POST /api/chat` request (app.js lines 130-133). -/
structure ChatRequest where
  message : String
  session_id : String
deriving DecidableEq

/-- Outcome of the awaited `/api/chat` exchange as `handleSend` can
observe it: `fetch` rejects (network error), `response.ok` is false
(non-2xx status, app.js line 136), `response.json()` rejects, or a 2xx
response with a JSON body whose `response` field is the given string. -/
inductive ChatOutcome where
  | networkError
  | httpError
  | jsonError
  | success (response : String)
deriving DecidableEq

/-- Outcome of a `/api/new_session` exchange as the caller observes it:
either a JSON body was obtained and its `session_id` field is the given
string (`response.ok` is never consulted), or `fetch` or `response.json()`
rejected and control reached the `catch` block, which only logs. -/
inductive SessionOutcome where
  | success (session_id : String)
  | failure
deriving DecidableEq

/-- Removal of the first element satisfying `p`, the effect of
`element.remove()` on the first match found by `querySelector` or
`getElementById` in document order. -/
def removeFirst {α : Type} (p : α → Bool) : List α → List α
  | [] => []
  | x :: xs => if p x then xs else x :: removeFirst p xs

/-- The JavaScript `String.prototype.trim` used at app.js line 99:
leading and trailing whitespace characters are stripped.  Defined over
the character list so that it evaluates by kernel reduction. -/
def jsTrim (s : String) : String :=
  String.mk (((s.data.dropWhile Char.isWhitespace).reverse.dropWhile
    Char.isWhitespace).reverse)

/-- The fixed apology string appended on a failed send (app.js line 151). -/
def apologyText : String := "抱歉，发生了错误。请稍后重试。"

/-- The content of a message row as `addMessage` renders it (app.js lines
165-172): an assistant message, when both libraries are present, is
`marked.parse`d and `DOMPurify.sanitize`d and inserted as markup;
otherwise the content is inserted as inert text. -/
def renderContent (env : Env) (role : Role) (content : String) : Rendered :=
  if role = Role.assistant ∧ env.hasMarked = true ∧ env.hasDOMPurify = true then
    Rendered.markup (env.sanitize (env.parse content))
  else
    Rendered.text content

/-- The effect of `addMessage(role, content)` (app.js lines 159-181) on
the chat container: a message row with the rendered content is appended. -/
def addMessage (env : Env) (role : Role) (content : String)
    (view : List ViewItem) : List ViewItem :=
  view ++ [ViewItem.message role (renderContent env role content)]

/-- The effect of `addLoadingIndicator()` (app.js lines 184-206): a row
with id `loading-indicator` is appended to the chat container. -/
def addLoadingIndicator (view : List ViewItem) : List ViewItem :=
  view ++ [ViewItem.loadingIndicator]

/-- The effect of `removeLoadingIndicator(id)` (app.js lines 209-214):
the first element with id `loading-indicator` is removed if present. -/
def removeLoadingIndicator (view : List ViewItem) : List ViewItem :=
  removeFirst ViewItem.isLoading view

/-- The `initializeSession` handler (app.js lines 25-38) as a function of
its exchange's outcome: on success the received `session_id` is stored in
`currentSessionId`; on failure the error is only logged and nothing
changes. -/
def initializeSession (st : AppState) (o : SessionOutcome) : AppState :=
  match o with
  | SessionOutcome.success sid => { st with currentSessionId := sid }
  | SessionOutcome.failure => st

/-- The `handleNewChat` handler (app.js lines 217-246): the chat
container's contents are replaced by the welcome placeholder, then a new
session is requested exactly as `initializeSession` does. -/
def handleNewChat (st : AppState) (o : SessionOutcome) : AppState :=
  let st1 : AppState := { st with view := [ViewItem.welcome] }
  match o with
  | SessionOutcome.success sid => { st1 with currentSessionId := sid }
  | SessionOutcome.failure => st1

/-- The part of `handleSend` (app.js lines 98-134) that runs before its
`fetch` resolves: the guard `if (!message || isWaitingResponse) return`
(line 100), then clearing the input, removing the welcome placeholder,
appending the user message and the typing placeholder, setting the busy
flag and issuing the request.  Returns the new state and the issued
request, or `none` when the guard fired. -/
def handleSendPhase1 (env : Env) (st : AppState) :
    AppState × Option ChatRequest :=
  let message := jsTrim st.inputValue
  if message = "" ∨ st.isWaitingResponse = true then
    (st, none)
  else
    let v1 := removeFirst ViewItem.isWelcome st.view
    let v2 := addMessage env Role.user message v1
    let v3 := addLoadingIndicator v2
    ({ st with inputValue := "", view := v3, isWaitingResponse := true },
      some { message := message, session_id := st.currentSessionId })

/-- The resumption of `handleSend` after its `fetch` settles (app.js
lines 136-155): on success the typing placeholder is removed and the
assistant reply appended; on any failure (rejected fetch, non-2xx status
turned into a thrown error, or rejected `response.json()`) the `catch`
block removes the placeholder and appends the apology; the `finally`
block clears the busy flag in every case. -/
def handleSendPhase2 (env : Env) (st : AppState) (o : ChatOutcome) :
    AppState :=
  let stDone : AppState :=
    match o with
    | ChatOutcome.success resp =>
        let v := addMessage env Role.assistant resp (removeLoadingIndicator st.view)
        { st with view := v }
    | _ =>
        let v := addMessage env Role.assistant apologyText (removeLoadingIndicator st.view)
        { st with view := v }
  { stDone with isWaitingResponse := false }

/-- The whole `handleSend` handler (app.js lines 98-156) for a run in
which the single awaited exchange has outcome `o`: phase 1, then phase 2
when a request was issued. -/
def handleSend (env : Env) (st : AppState) (o : ChatOutcome) :
    AppState × Option ChatRequest :=
  match handleSendPhase1 env st with
  | (st1, none) => (st1, none)
  | (st1, some req) => (handleSendPhase2 env st1 o, some req)

/-- The initial values of the module-level globals (app.js lines 7-9);
the initial chat container holds the welcome placeholder that
`handleNewChat` restores and line 108 queries for. -/
def initialState : AppState :=
  { view := [ViewItem.welcome], inputValue := "", isWaitingResponse := false,
    currentSessionId := "default", isComposing := false }

/-- An environment in which both `window.marked` and `window.DOMPurify`
are present, with identity library functions, used to instantiate the
theorems below at concrete inputs. -/
def envFull : Env :=
  { hasMarked := true, hasDOMPurify := true,
    parse := fun s => s, sanitize := fun s => s }

/-- A concrete state ready to send: nonempty input, no send pending. -/
def stReady : AppState :=
  { view := [ViewItem.welcome], inputValue := "hi",
    isWaitingResponse := false, currentSessionId := "default",
    isComposing := false }

/-- A concrete state whose input is whitespace-only. -/
def stBlank : AppState :=
  { view := [ViewItem.welcome], inputValue := " ",
    isWaitingResponse := false, currentSessionId := "default",
    isComposing := false }

/-- A concrete state with a send already pending. -/
def stPending : AppState :=
  { view := [ViewItem.welcome,
      ViewItem.message Role.user (Rendered.text "hi"),
      ViewItem.loadingIndicator],
    inputValue := "again", isWaitingResponse := true,
    currentSessionId := "default", isComposing := false }

/-! Helper lemmas about `removeFirst`. -/

theorem mem_of_mem_removeFirst {α : Type} (p : α → Bool) (x : α)
    (l : List α) (h : x ∈ removeFirst p l) : x ∈ l := by
  induction l with
  | nil => simp [removeFirst] at h
  | cons a as ih =>
      by_cases hpa : p a = true
      · simp [removeFirst, hpa] at h
        exact List.mem_cons_of_mem a h
      · simp [removeFirst, hpa] at h
        rcases h with h | h
        · simp [h]
        · exact List.mem_cons_of_mem a (ih h)

theorem removeFirst_append_of_none {α : Type} (p : α → Bool) (xs ys : List α)
    (h : ∀ x ∈ xs, p x = false) :
    removeFirst p (xs ++ ys) = xs ++ removeFirst p ys := by
  induction xs with
  | nil => simp
  | cons a as ih =>
      have ha : p a = false := h a (List.mem_cons_self a as)
      have ih2 := ih (fun x hx => h x (List.mem_cons_of_mem a hx))
      simp [removeFirst, ha, ih2]

theorem removeFirst_all_false_of_countP_le_one {α : Type} (p : α → Bool)
    (l : List α) (h : l.countP p ≤ 1) :
    ∀ x ∈ removeFirst p l, p x = false := by
  induction l with
  | nil => intro x hx; simp [removeFirst] at hx
  | cons a as ih =>
      intro x hx
      by_cases hpa : p a = true
      · simp [removeFirst, hpa] at hx
        have hc : as.countP p = 0 := by
          rw [List.countP_cons_of_pos p as hpa] at h
          omega
        have hall := List.countP_eq_zero.mp hc
        simpa using hall x hx
      · simp [removeFirst, hpa] at hx
        rcases hx with rfl | hx
        · simpa using hpa
        · have h2 : as.countP p ≤ 1 := by
            rwa [List.countP_cons_of_neg p as hpa] at h
          exact ih h2 x hx

/-! Helper lemmas about the send cycle. -/

theorem handleSendPhase1_sends (env : Env) (st : AppState)
    (hmsg : jsTrim st.inputValue ≠ "") (hbusy : st.isWaitingResponse = false) :
    handleSendPhase1 env st =
      ({ st with inputValue := "", view := addLoadingIndicator (addMessage env Role.user (jsTrim st.inputValue) (removeFirst ViewItem.isWelcome st.view)), isWaitingResponse := true },
        some { message := jsTrim st.inputValue, session_id := st.currentSessionId }) := by
  simp [handleSendPhase1, hmsg, hbusy]

theorem handleSendPhase2_clears_busy (env : Env) (st : AppState) (o : ChatOutcome) :
    (handleSendPhase2 env st o).isWaitingResponse = false := by
  cases o <;> rfl

theorem isLoading_false_of_not_mem {x : ViewItem} {l : List ViewItem}
    (hload : ViewItem.loadingIndicator ∉ l) (hx : x ∈ l) :
    ViewItem.isLoading x = false := by
  cases x with
  | loadingIndicator => exact absurd hx hload
  | welcome => rfl
  | message r c => rfl

theorem removeLoading_addLoading (xs : List ViewItem)
    (h : ∀ x ∈ xs, ViewItem.isLoading x = false) :
    removeLoadingIndicator (addLoadingIndicator xs) = xs := by
  simp [removeLoadingIndicator, addLoadingIndicator,
    removeFirst_append_of_none ViewItem.isLoading xs [ViewItem.loadingIndicator] h,
    removeFirst, ViewItem.isLoading]

theorem sent_view_no_loading (env : Env) (st : AppState)
    (hload : ViewItem.loadingIndicator ∉ st.view) :
    ∀ x ∈ addMessage env Role.user (jsTrim st.inputValue)
      (removeFirst ViewItem.isWelcome st.view), ViewItem.isLoading x = false := by
  intro x hx
  simp [addMessage] at hx
  rcases hx with hx | hx
  · exact isLoading_false_of_not_mem hload
      (mem_of_mem_removeFirst ViewItem.isWelcome x st.view hx)
  · rw [hx]
    rfl

theorem handleSend_view_shape (env : Env) (st : AppState) (o : ChatOutcome)
    (hmsg : jsTrim st.inputValue ≠ "") (hbusy : st.isWaitingResponse = false) :
    ∃ c : String, (handleSend env st o).1.view =
      addMessage env Role.assistant c (removeLoadingIndicator
        (addLoadingIndicator (addMessage env Role.user (jsTrim st.inputValue)
          (removeFirst ViewItem.isWelcome st.view)))) := by
  have h1 := handleSendPhase1_sends env st hmsg hbusy
  cases o with
  | networkError => exact ⟨apologyText, by simp [handleSend, h1, handleSendPhase2]⟩
  | httpError => exact ⟨apologyText, by simp [handleSend, h1, handleSendPhase2]⟩
  | jsonError => exact ⟨apologyText, by simp [handleSend, h1, handleSendPhase2]⟩
  | success resp => exact ⟨resp, by simp [handleSend, h1, handleSendPhase2]⟩

/-- C3: for every input string that is empty or whitespace-only after
trimming, invoking `handleSend` is a no-op: no network request is issued
(the returned request is `none`), no message is appended to the view, and
no state (input field, busy flag, session id) changes. -/
theorem C3_handleSend_blank_input_noop (env : Env) (st : AppState)
    (o : ChatOutcome) (h : jsTrim st.inputValue = "") :
    handleSend env st o = (st, none) := by
  simp [handleSend, handleSendPhase1, h]

/-- Witness for C3 at the whitespace-only input of `stBlank`. -/
theorem C3_witness :
    jsTrim stBlank.inputValue = "" ∧
    handleSend envFull stBlank ChatOutcome.networkError = (stBlank, none) :=
  ⟨by decide,
    C3_handleSend_blank_input_noop envFull stBlank ChatOutcome.networkError (by decide)⟩

/-- C4: while a send is pending (`isWaitingResponse` is true), invoking
`handleSend` again returns immediately: no network request is issued (the
returned request is `none`) and the state, in particular the view, is
unchanged; hence at most one send request is outstanding at a time. -/
theorem C4_handleSend_pending_noop (env : Env) (st : AppState)
    (o : ChatOutcome) (h : st.isWaitingResponse = true) :
    handleSend env st o = (st, none) := by
  simp [handleSend, handleSendPhase1, h]

/-- Witness for C4 at the pending state `stPending`. -/
theorem C4_witness :
    stPending.isWaitingResponse = true ∧
    handleSend envFull stPending (ChatOutcome.success "late") =
      (stPending, none) :=
  ⟨by decide,
    C4_handleSend_pending_noop envFull stPending (ChatOutcome.success "late") (by decide)⟩

/-- C5: session acquisition (`initializeSession`, and the identical logic
in `handleNewChat`): on success the received `session_id` is stored as
the active token; on failure the previously stored token is left
unchanged (for `initializeSession` the whole state is unchanged - the
error is only logged, with no retry and no user-facing message). -/
theorem C5_startSession_session_handling :
    (∀ st sid, initializeSession st (SessionOutcome.success sid) =
      { st with currentSessionId := sid }) ∧
    (∀ st, initializeSession st SessionOutcome.failure = st) ∧
    (∀ st sid, (handleNewChat st (SessionOutcome.success sid)).currentSessionId = sid) ∧
    (∀ st, (handleNewChat st SessionOutcome.failure).currentSessionId =
      st.currentSessionId) :=
  ⟨fun _ _ => rfl, fun _ => rfl, fun _ _ => rfl, fun _ => rfl⟩

/-- C6: for every invocation of `handleNewChat`, regardless of prior view
contents, the view afterwards contains exactly the welcome placeholder
(plus, on success, the new assistant-free session), and the whole handler
coincides with `initializeSession` run on the cleared state. -/
theorem C6_resetSession_clears_then_starts (st : AppState) (o : SessionOutcome) :
    (handleNewChat st o).view = [ViewItem.welcome] ∧
    handleNewChat st o = initializeSession { st with view := [ViewItem.welcome] } o := by
  cases o <;> exact ⟨rfl, rfl⟩

/-- C7: for every assistant content string and every view, `addMessage`
inserts the content either as markup that has been Markdown-parsed and
then passed through the sanitizer, or as inert text; it is never inserted
as unsanitized markup. -/
theorem C7_assistant_content_sanitized_or_inert (env : Env) (content : String)
    (view : List ViewItem) :
    addMessage env Role.assistant content view =
      view ++ [ViewItem.message Role.assistant
        (Rendered.markup (env.sanitize (env.parse content)))] ∨
    addMessage env Role.assistant content view =
      view ++ [ViewItem.message Role.assistant (Rendered.text content)] := by
  by_cases h1 : env.hasMarked = true
  · by_cases h2 : env.hasDOMPurify = true
    · left
      simp [addMessage, renderContent, h1, h2]
    · right
      simp [addMessage, renderContent, h2]
  · right
    simp [addMessage, renderContent, h1]

/-- C1: for every send of a non-empty trimmed message while no send is
pending, if the `/api/chat` request succeeds, then after `handleSend`
completes the view has gained exactly one new user message followed by
exactly one new assistant message (the typing placeholder having been
removed), and `isWaitingResponse` is false. -/
theorem C1_handleSend_success (env : Env) (st : AppState) (resp : String)
    (hmsg : jsTrim st.inputValue ≠ "") (hbusy : st.isWaitingResponse = false)
    (hload : ViewItem.loadingIndicator ∉ st.view) :
    (handleSend env st (ChatOutcome.success resp)).1.view =
      removeFirst ViewItem.isWelcome st.view ++
        [ViewItem.message Role.user (Rendered.text (jsTrim st.inputValue)),
         ViewItem.message Role.assistant (renderContent env Role.assistant resp)] ∧
    (handleSend env st (ChatOutcome.success resp)).1.isWaitingResponse = false := by
  have h1 := handleSendPhase1_sends env st hmsg hbusy
  have h2 := removeLoading_addLoading _ (sent_view_no_loading env st hload)
  constructor
  · have hview : (handleSend env st (ChatOutcome.success resp)).1.view =
        addMessage env Role.assistant resp (removeLoadingIndicator
          (addLoadingIndicator (addMessage env Role.user (jsTrim st.inputValue)
            (removeFirst ViewItem.isWelcome st.view)))) := by
      simp [handleSend, h1, handleSendPhase2]
    rw [hview, h2]
    simp [addMessage, renderContent]
  · simp [handleSend, h1, handleSendPhase2_clears_busy]

/-- Witness for C1: the ready state `stReady` with response "ok". -/
theorem C1_witness :
    (jsTrim stReady.inputValue ≠ "" ∧ stReady.isWaitingResponse = false ∧
      ViewItem.loadingIndicator ∉ stReady.view) ∧
    ((handleSend envFull stReady (ChatOutcome.success "ok")).1.view =
      removeFirst ViewItem.isWelcome stReady.view ++
        [ViewItem.message Role.user (Rendered.text (jsTrim stReady.inputValue)),
         ViewItem.message Role.assistant (renderContent envFull Role.assistant "ok")] ∧
     (handleSend envFull stReady (ChatOutcome.success "ok")).1.isWaitingResponse = false) :=
  ⟨⟨by decide, by decide, by decide⟩,
    C1_handleSend_success envFull stReady "ok" (by decide) (by decide) (by decide)⟩

/-- C2: on any failure of the exchange (network error, non-2xx status, or
JSON parse error) `handleSend` removes the typing placeholder and appends
the fixed apology as an assistant message, and in every outcome (success
or failure) the busy flag `isWaitingResponse` is false afterward. -/
theorem C2_handleSend_failure (env : Env) (st : AppState) (o : ChatOutcome)
    (hmsg : jsTrim st.inputValue ≠ "") (hbusy : st.isWaitingResponse = false)
    (hload : ViewItem.loadingIndicator ∉ st.view)
    (hfail : o = ChatOutcome.networkError ∨ o = ChatOutcome.httpError ∨
      o = ChatOutcome.jsonError) :
    (handleSend env st o).1.view =
      removeFirst ViewItem.isWelcome st.view ++
        [ViewItem.message Role.user (Rendered.text (jsTrim st.inputValue)),
         ViewItem.message Role.assistant (renderContent env Role.assistant apologyText)] ∧
    (∀ o2 : ChatOutcome, (handleSend env st o2).1.isWaitingResponse = false) := by
  have h1 := handleSendPhase1_sends env st hmsg hbusy
  have h2 := removeLoading_addLoading _ (sent_view_no_loading env st hload)
  constructor
  · have hview : (handleSend env st o).1.view =
        addMessage env Role.assistant apologyText (removeLoadingIndicator
          (addLoadingIndicator (addMessage env Role.user (jsTrim st.inputValue)
            (removeFirst ViewItem.isWelcome st.view)))) := by
      rcases hfail with rfl | rfl | rfl <;> simp [handleSend, h1, handleSendPhase2]
    rw [hview, h2]
    simp [addMessage, renderContent]
  · intro o2
    simp [handleSend, h1, handleSendPhase2_clears_busy]

/-- Witness for C2: the ready state `stReady` with a non-2xx outcome. -/
theorem C2_witness :
    (jsTrim stReady.inputValue ≠ "" ∧ stReady.isWaitingResponse = false ∧
      ViewItem.loadingIndicator ∉ stReady.view ∧
      (ChatOutcome.httpError = ChatOutcome.networkError ∨
        ChatOutcome.httpError = ChatOutcome.httpError ∨
        ChatOutcome.httpError = ChatOutcome.jsonError)) ∧
    ((handleSend envFull stReady ChatOutcome.httpError).1.view =
      removeFirst ViewItem.isWelcome stReady.view ++
        [ViewItem.message Role.user (Rendered.text (jsTrim stReady.inputValue)),
         ViewItem.message Role.assistant (renderContent envFull Role.assistant apologyText)] ∧
     (∀ o2 : ChatOutcome, (handleSend envFull stReady o2).1.isWaitingResponse = false)) :=
  ⟨⟨by decide, by decide, by decide, Or.inr (Or.inl rfl)⟩,
    C2_handleSend_failure envFull stReady ChatOutcome.httpError (by decide) (by decide)
      (by decide) (Or.inr (Or.inl rfl))⟩

/-- C9: for every send of a non-empty message while not busy, the welcome
placeholder is removed before the user message is appended, and after the
send the welcome placeholder is no longer in the view. -/
theorem C9_send_removes_welcome (env : Env) (st : AppState) (o : ChatOutcome)
    (hmsg : jsTrim st.inputValue ≠ "") (hbusy : st.isWaitingResponse = false)
    (hw : st.view.countP ViewItem.isWelcome ≤ 1) :
    (handleSendPhase1 env st).1.view =
      addLoadingIndicator (addMessage env Role.user (jsTrim st.inputValue)
        (removeFirst ViewItem.isWelcome st.view)) ∧
    ViewItem.welcome ∉ (handleSend env st o).1.view := by
  have h1 := handleSendPhase1_sends env st hmsg hbusy
  refine ⟨by simp [h1], ?_⟩
  rcases handleSend_view_shape env st o hmsg hbusy with ⟨c, hc⟩
  intro hmem
  rw [hc] at hmem
  simp [addMessage, addLoadingIndicator, removeLoadingIndicator] at hmem
  have hmem2 := mem_of_mem_removeFirst ViewItem.isLoading ViewItem.welcome _ hmem
  simp at hmem2
  have hfalse := removeFirst_all_false_of_countP_le_one ViewItem.isWelcome st.view hw
    ViewItem.welcome hmem2
  simp [ViewItem.isWelcome] at hfalse

/-- Witness for C9: the ready state `stReady`, whose view holds one
welcome placeholder, with a successful outcome. -/
theorem C9_witness :
    (jsTrim stReady.inputValue ≠ "" ∧ stReady.isWaitingResponse = false ∧
      stReady.view.countP ViewItem.isWelcome ≤ 1) ∧
    ((handleSendPhase1 envFull stReady).1.view =
      addLoadingIndicator (addMessage envFull Role.user (jsTrim stReady.inputValue)
        (removeFirst ViewItem.isWelcome stReady.view)) ∧
     ViewItem.welcome ∉ (handleSend envFull stReady (ChatOutcome.success "ok")).1.view) :=
  ⟨⟨by decide, by decide, by decide⟩,
    C9_send_removes_welcome envFull stReady (ChatOutcome.success "ok") (by decide)
      (by decide) (by decide)⟩

/-- C8: a pending `/api/chat` request is not aborted by a session reset.
If `handleNewChat` runs between the two phases of a pending `handleSend`,
the response that later arrives is still rendered into the cleared view:
the assistant message is appended after the welcome placeholder. -/
theorem C8_stale_response_rendered (env : Env) (st : AppState)
    (so : SessionOutcome) (resp : String)
    (hmsg : jsTrim st.inputValue ≠ "") (hbusy : st.isWaitingResponse = false) :
    (handleSendPhase1 env st).1.isWaitingResponse = true ∧
    (handleSendPhase1 env st).2 ≠ none ∧
    (handleSendPhase2 env (handleNewChat (handleSendPhase1 env st).1 so)
        (ChatOutcome.success resp)).view =
      [ViewItem.welcome,
       ViewItem.message Role.assistant (renderContent env Role.assistant resp)] := by
  have h1 := handleSendPhase1_sends env st hmsg hbusy
  refine ⟨by simp [h1], by simp [h1], ?_⟩
  cases so <;>
    simp [h1, handleNewChat, handleSendPhase2, removeLoadingIndicator, removeFirst,
      ViewItem.isLoading, addMessage]

/-- Witness for C8: the ready state `stReady`, a failed session reset
exchange, and the late response "late". -/
theorem C8_witness :
    (jsTrim stReady.inputValue ≠ "" ∧ stReady.isWaitingResponse = false) ∧
    ((handleSendPhase1 envFull stReady).1.isWaitingResponse = true ∧
     (handleSendPhase1 envFull stReady).2 ≠ none ∧
     (handleSendPhase2 envFull
        (handleNewChat (handleSendPhase1 envFull stReady).1 SessionOutcome.failure)
        (ChatOutcome.success "late")).view =
      [ViewItem.welcome,
       ViewItem.message Role.assistant (renderContent envFull Role.assistant "late")]) :=
  ⟨⟨by decide, by decide⟩,
    C8_stale_response_rendered envFull stReady SessionOutcome.failure "late"
      (by decide) (by decide)⟩

/-- C10: the session identifier starts as the literal "default"; every
issued `/api/chat` request carries `session_id` equal to the stored
token, which is never absent; `handleSend` never changes the token; and a
failed session acquisition leaves the state unchanged, so before the
first successful acquisition the token sent is "default". -/
theorem C10_session_id_default_until_acquired :
    initialState.currentSessionId = "default" ∧
    (∀ env st o, (handleSend env st o).2 = none ∨
      (handleSend env st o).2 =
        some { message := jsTrim st.inputValue, session_id := st.currentSessionId }) ∧
    (∀ env st o, ((handleSend env st o).1).currentSessionId = st.currentSessionId) ∧
    (∀ st, initializeSession st SessionOutcome.failure = st) := by
  refine ⟨rfl, ?_, ?_, fun st => rfl⟩
  · intro env st o
    by_cases hguard : jsTrim st.inputValue = "" ∨ st.isWaitingResponse = true
    · left
      simp [handleSend, handleSendPhase1, hguard]
    · right
      push_neg at hguard
      have hbusy : st.isWaitingResponse = false := by
        simpa using hguard.2
      have h1 := handleSendPhase1_sends env st hguard.1 hbusy
      cases o <;> simp [handleSend, h1]
  · intro env st o
    by_cases hguard : jsTrim st.inputValue = "" ∨ st.isWaitingResponse = true
    · simp [handleSend, handleSendPhase1, hguard]
    · push_neg at hguard
      have hbusy : st.isWaitingResponse = false := by
        simpa using hguard.2
      have h1 := handleSendPhase1_sends env st hguard.1 hbusy
      cases o <;> simp [handleSend, h1, handleSendPhase2]

end Brainbeacon
